import Mathlib

/-!
Verification of the NotebookLM artifact generation and download orchestrator.

The development shallowly embeds the TypeScript modules
`actions/artifactMonitor.ts`, `actions/downloadHandler.ts`,
`actions/dialogInteraction.ts`, `actions/slideGeneration.ts` and the batch
scheduler `batchGenerateSlides` from `pageActions.ts`.

Conventions of the embedding:
* JavaScript strings are modelled as `List Char`; `toLowerCase`, `trim`,
  `includes`, `startsWith`, `endsWith` and `lastIndexOf` are modelled by the
  corresponding list functions below.
* The DOM visible to the in-page scripts is modelled by the `Page` structure:
  per artifact kind, the ordered list of elements matched by the kind's
  selector, each carrying exactly the attributes the scripts read.
* Polling loops are modelled over a finite trace of snapshots, one snapshot
  per poll iteration; the end of the trace is the deadline expiring.
* Remote side effects whose outcome the orchestrator merely branches on
  (a click landing, a dialog opening) are modelled as outcome parameters.
-/

/-- Artifact kinds, from `types.ts` (`ArtifactType`). -/
inductive ArtifactType where
  | slides
  | audio
  | video
  | infographic
deriving DecidableEq, Repr

/-- Lowercasing of a JS string (`toLowerCase`), modelled characterwise. -/
def lowerStr (s : List Char) : List Char :=
  s.map Char.toLower

/-- Trimming of a JS string (`trim`): whitespace removed from both ends. -/
def trimStr (s : List Char) : List Char :=
  ((s.dropWhile Char.isWhitespace).reverse.dropWhile Char.isWhitespace).reverse

/-- Index of the last occurrence of a character (`String.lastIndexOf`);
`none` models the JS result `-1`. -/
def lastIndexOfChar (c : Char) : List Char → Option Nat
  | [] => none
  | x :: xs =>
    match lastIndexOfChar c xs with
    | some i => some (i + 1)
    | none => if x = c then some 0 else none

/-- Helper for `collapseWs`: the flag records whether the previous character
was part of a whitespace run already replaced by an underscore. -/
def collapseWsAux : Bool → List Char → List Char
  | _, [] => []
  | inWs, c :: rest =>
    if c.isWhitespace then
      if inWs then collapseWsAux true rest
      else '_' :: collapseWsAux true rest
    else c :: collapseWsAux false rest

/-- Replacement of whitespace runs by single underscores: the JS
`prefix.replace(/\s+/g, '_')` in `formatFilename`. -/
def collapseWs (s : List Char) : List Char :=
  collapseWsAux false s

/-- Substring test modelling the JS `String.prototype.includes`: whether
`needle` occurs contiguously in the second argument. -/
def containsSub (needle : List Char) : List Char → Bool
  | [] => needle.isEmpty
  | c :: t => needle.isPrefixOf (c :: t) || containsSub needle t

/-- Character-list literal used by the shimmer detection. -/
def shimmerChars : List Char := "shimmer".toList

/-- Marker phrase looked for in artifact titles. -/
def generatingChars : List Char := "generating".toList

/-- Class name marking a disabled Material button. -/
def matDisabledChars : List Char := "mat-mdc-button-disabled".toList

/-- Fallback title used by `getArtifactInfo`. -/
def untitledChars : List Char := "Untitled".toList

/-! DOM model for the artifact monitor scripts. -/

/-- Observable state of a `button` element inside an artifact container. -/
structure MatButton where
  disabled : Bool
  classes : List (List Char)
deriving DecidableEq, Repr

/-- Observable state of the `.artifact-item-button` container returned by
`artifact.closest('.artifact-item-button')`. -/
structure ParentContainer where
  /-- Class list of the container itself. -/
  classes : List (List Char)
  /-- First `button` descendant, if any. -/
  button : Option MatButton
  /-- Text content of the `.artifact-title` descendant, if present. -/
  titleText : Option (List Char)
  /-- Whether a `mat-icon.rotate` descendant exists. -/
  hasSyncIcon : Bool
deriving DecidableEq, Repr

/-- One element matched by an artifact kind's selector. `artTitle` is the
text of the `.artifact-title` descendant of the element itself (queried by
`getArtifactInfo`), `parent` the closest `.artifact-item-button` container
(queried by the loading checks). -/
structure ArtifactElem where
  artTitle : Option (List Char)
  parent : Option ParentContainer
deriving DecidableEq, Repr

/-- Snapshot of the page: per artifact kind, the ordered element list the
kind's selector currently matches. -/
structure Page where
  artifacts : ArtifactType → List ArtifactElem

/-- Shimmer indicator: some container class starts with `shimmer`
(`artifactMonitor.ts` line 62). -/
def shimmerSignal (p : ParentContainer) : Bool :=
  p.classes.any fun c => shimmerChars.isPrefixOf c

/-- Disabled-button indicator: `button?.disabled ||
button?.classList.contains('mat-mdc-button-disabled')` (line 66). -/
def disabledSignal (p : ParentContainer) : Bool :=
  match p.button with
  | none => false
  | some b => b.disabled || b.classes.contains matDisabledChars

/-- Generating-title indicator: the lowercased `.artifact-title` text
contains `generating` (lines 69-71). -/
def generatingSignal (p : ParentContainer) : Bool :=
  containsSub generatingChars (lowerStr (p.titleText.getD []))

/-- Rotating-icon indicator: a `mat-icon.rotate` descendant exists
(lines 74-75). -/
def syncSignal (p : ParentContainer) : Bool :=
  p.hasSyncIcon

/-- Embedding of `countArtifacts`: the number of elements the kind's
selector matches. -/
def countArtifacts (page : Page) (t : ArtifactType) : Nat :=
  (page.artifacts t).length

/-- Resolution of the JS index argument: negative means the last element
(`idx = index < 0 ? artifacts.length - 1 : index`). -/
def resolveIndex (index : Int) (len : Nat) : Nat :=
  if index < 0 then len - 1 else index.toNat

/-- Embedding of `isArtifactLoading` (`artifactMonitor.ts` lines 36-95).
The in-page script returns `{found, loading}`; the wrapper returns
`outcome?.loading ?? false`, so the embedding returns the `loading` field.
Note that the script computes the disabled indicator but the final
disjunction on line 78 is `hasShimmer || isGenerating || hasSyncIcon`. -/
def isArtifactLoading (page : Page) (t : ArtifactType) (index : Int) : Bool :=
  let arts := page.artifacts t
  if arts.length = 0 then false
  else
    let idx := resolveIndex index arts.length
    if arts.length ≤ idx then false
    else
      match arts[idx]? with
      | none => false
      | some a =>
        match a.parent with
        | none => false
        | some p => shimmerSignal p || generatingSignal p || syncSignal p

/-- Result record of `getArtifactInfo`. -/
structure ArtifactInfo where
  title : List Char
  loading : Bool
  type : ArtifactType
deriving DecidableEq, Repr

/-- Embedding of `getArtifactInfo` (`artifactMonitor.ts` lines 251-299):
`null` when no element matches or the index is out of range, otherwise the
trimmed title (with `Untitled` fallback) and the three-signal loading
state computed over the element's own title text. -/
def getArtifactInfo (page : Page) (t : ArtifactType) (index : Int) :
    Option ArtifactInfo :=
  let arts := page.artifacts t
  if arts.length = 0 then none
  else
    let idx := resolveIndex index arts.length
    if arts.length ≤ idx then none
    else
      match arts[idx]? with
      | none => none
      | some a =>
        let title0 :=
          match a.artTitle with
          | some s => trimStr s
          | none => untitledChars
        let loading :=
          match a.parent with
          | none => false
          | some p =>
            shimmerSignal p
              || containsSub generatingChars (lowerStr title0)
              || p.hasSyncIcon
        some { title := if title0 = [] then untitledChars else title0,
               loading := loading,
               type := t }

/-- Embedding of the polling loop of `waitForArtifactReady`
(`artifactMonitor.ts` lines 145-198). Each element of `trace` is the page
snapshot one poll iteration observes; the empty trace is the deadline
expiring. An iteration returns `true` exactly when the current count
exceeds `initialCount` and the last-index artifact is not loading. -/
def waitForArtifactReady (t : ArtifactType) (initialCount : Nat) :
    List Page → Bool
  | [] => false
  | p :: rest =>
    if initialCount < countArtifacts p t then
      if isArtifactLoading p t (-1) then waitForArtifactReady t initialCount rest
      else true
    else waitForArtifactReady t initialCount rest

/-! Download pipeline model (`downloadHandler.ts`). -/

/-- Default file extensions per artifact kind (`ARTIFACT_EXTENSIONS`,
`downloadHandler.ts` lines 407-412). -/
def artifactExtension : ArtifactType → List Char
  | ArtifactType.slides => ".pdf".toList
  | ArtifactType.audio => ".wav".toList
  | ArtifactType.video => ".mp4".toList
  | ArtifactType.infographic => ".png".toList

/-- Short-trailing-extension test of `formatFilename`
(`downloadHandler.ts` line 423): the last dot sits at a positive index and
within the last five characters. Natural subtraction agrees with the JS
`lastDot > suggested.length - 6` here because the other conjunct already
forces `lastDot > 0`. -/
def hasShortExtension (s : List Char) : Bool :=
  match lastIndexOfChar '.' s with
  | some i => decide (0 < i) && decide (s.length - 6 < i)
  | none => false

/-- Extension split point used by `formatFilename`: index of the last dot,
defaulting to `0` (only read when `hasShortExtension` holds). -/
def extensionStart (s : List Char) : Nat :=
  (lastIndexOfChar '.' s).getD 0

/-- Extension part of a suggested name that `hasShortExtension` accepts
(`suggested.slice(lastDot)`, dot included). -/
def originalExtension (s : List Char) : List Char :=
  s.drop (extensionStart s)

/-- Embedding of `formatFilename` (`downloadHandler.ts` lines 417-441).
The artifact kind is always supplied at the call sites of the module, so it
is a plain argument here. -/
def formatFilename (suggested pfx : List Char) (t : ArtifactType) :
    List Char :=
  let cleanPrefix := collapseWs pfx
  let name :=
    if hasShortExtension suggested then suggested.take (extensionStart suggested)
    else suggested
  let ext :=
    if hasShortExtension suggested then suggested.drop (extensionStart suggested)
    else artifactExtension t
  if cleanPrefix = [] then name ++ ext
  else cleanPrefix ++ '_' :: (name ++ ext)

/-- Temporary-download test of `waitForDownload`
(`downloadHandler.ts` line 210): `.crdownload` or `.tmp` suffix, or a
dotfile name. -/
def isTempDownloadFile (f : List Char) : Bool :=
  ".crdownload".toList.isSuffixOf f
    || ".tmp".toList.isSuffixOf f
    || decide (f.head? = some '.')

/-- One poll iteration of `waitForDownload` as it observes the download
directory: the listing, the size measured at the first `statSync`, and the
size measured at the second `statSync` after the settle delay (`none` when
the file vanished in between). -/
structure DirSnapshot where
  files : List (List Char)
  size1 : List Char → Nat
  size2 : List Char → Option Nat

/-- Inner `for` loop of `waitForDownload` (`downloadHandler.ts` lines
204-226): scan the listing for a new, non-temporary file whose size is
unchanged between the two checks and non-zero. -/
def scanNewFiles (existing : List (List Char)) (snap : DirSnapshot) :
    List (List Char) → Option (List Char)
  | [] => none
  | f :: rest =>
    if existing.contains f then scanNewFiles existing snap rest
    else if isTempDownloadFile f then scanNewFiles existing snap rest
    else
      match snap.size2 f with
      | none => scanNewFiles existing snap rest
      | some s2 =>
        if snap.size1 f = s2 ∧ 0 < s2 then some f
        else scanNewFiles existing snap rest

/-- Embedding of the polling loop of `waitForDownload`
(`downloadHandler.ts` lines 186-231): `existing` is the initial directory
listing, each trace element one poll iteration; `none` is the timeout. -/
def waitForDownload (existing : List (List Char)) :
    List DirSnapshot → Option (List Char)
  | [] => none
  | snap :: rest =>
    match scanNewFiles existing snap snap.files with
    | some f => some f
    | none => waitForDownload existing rest

/-- Download result record (`ArtifactDownloadResult` of `types.ts`,
without the filesystem path). -/
structure DownloadResultRec where
  filename : List Char
  suggestedFilename : List Char
  artifactType : ArtifactType
deriving DecidableEq, Repr

/-- Prefix argument of `downloadAllArtifacts`: either an array of optional
audience names or a single prefix string. -/
inductive AudiencesArg where
  | list (auds : List (Option (List Char)))
  | single (pfx : List Char)

/-- Left-padding of a decimal number to two digits
(`String(n).padStart(2, '0')`). -/
def pad2 (n : Nat) : List Char :=
  let ds := Nat.toDigits 10 n
  if ds.length < 2 then '0' :: ds else ds

/-- Per-position prefix computation of `downloadAllArtifacts`
(`downloadHandler.ts` lines 354-362); `rel` is the relative index. JS
truthiness makes an absent or empty audience fall through to the bare
ordinal prefix. -/
def prefixForIndex (auds : AudiencesArg) (rel : Nat) : List Char :=
  match auds with
  | AudiencesArg.list lst =>
    match lst[rel]? with
    | some (some a) =>
      if a = [] then pad2 (rel + 1) else pad2 (rel + 1) ++ '_' :: a
    | _ => pad2 (rel + 1)
  | AudiencesArg.single s =>
    if s = [] then pad2 (rel + 1) else pad2 (rel + 1) ++ '_' :: s

/-- Environment outcome of one loop position of `downloadAllArtifacts`:
the loading check for the index, whether the download trigger clicked, and
the suggested filename `waitForDownload` confirmed (or `none` on timeout). -/
structure PosOutcome where
  loading : Bool
  triggered : Bool
  download : Option (List Char)

/-- Record pushed for a successful position of `downloadAllArtifacts`
(`downloadHandler.ts` lines 380-393). -/
def downloadRecordAt (t : ArtifactType) (auds : AudiencesArg)
    (startIndex i : Nat) (f : List Char) : DownloadResultRec :=
  { filename := formatFilename f (prefixForIndex auds (i - startIndex)) t,
    suggestedFilename := f,
    artifactType := t }

/-- Success projection of one loop position: `none` when the position is
skipped (still loading, trigger failed, or download timed out). -/
def posRecord (t : ArtifactType) (auds : AudiencesArg)
    (startIndex : Nat) (skipLoading : Bool) (i : Nat) (o : PosOutcome) :
    Option DownloadResultRec :=
  if skipLoading && o.loading then none
  else if !o.triggered then none
  else
    match o.download with
    | none => none
    | some f => some (downloadRecordAt t auds startIndex i f)

/-- Loop of `downloadAllArtifacts` (`downloadHandler.ts` lines 322-397),
iterating `remaining` positions from index `i`; every failing position is
skipped with `continue` and the loop moves on. -/
def downloadAllLoop (t : ArtifactType) (auds : AudiencesArg)
    (startIndex : Nat) (skipLoading : Bool) (out : Nat → PosOutcome) :
    Nat → Nat → List DownloadResultRec
  | _, 0 => []
  | i, remaining + 1 =>
    let o := out i
    if skipLoading && o.loading then
      downloadAllLoop t auds startIndex skipLoading out (i + 1) remaining
    else if !o.triggered then
      downloadAllLoop t auds startIndex skipLoading out (i + 1) remaining
    else
      match o.download with
      | none => downloadAllLoop t auds startIndex skipLoading out (i + 1) remaining
      | some f =>
        downloadRecordAt t auds startIndex i f
          :: downloadAllLoop t auds startIndex skipLoading out (i + 1) remaining

/-- Embedding of `downloadAllArtifacts` (`downloadHandler.ts` lines
286-401): `totalCount` is the artifact count read from the page, `out` the
per-position environment outcomes. -/
def downloadAllArtifacts (t : ArtifactType) (auds : AudiencesArg)
    (startIndex totalCount : Nat) (skipLoading : Bool)
    (out : Nat → PosOutcome) : List DownloadResultRec :=
  if totalCount = 0 ∨ totalCount ≤ startIndex then []
  else downloadAllLoop t auds startIndex skipLoading out startIndex
    (totalCount - startIndex)

/-! Dialog interaction model (`dialogInteraction.ts`). -/

/-- Observable state of one button of the open dialog, as read by
`clickGenerateButton`. -/
structure DialogButton where
  /-- Text content of the button. -/
  text : List Char
  /-- Value of the `aria-label` attribute, when present. -/
  ariaLabel : Option (List Char)
  disabled : Bool
  /-- Value of the `color` attribute, when present. -/
  color : Option (List Char)
deriving DecidableEq, Repr

/-- Observable state of the `mat-dialog-container` element. -/
structure MatDialog where
  buttons : List DialogButton
  textContent : List Char
deriving DecidableEq, Repr

/-- Normalisation applied to button text before matching:
`textContent?.toLowerCase().trim()`. -/
def buttonText (b : DialogButton) : List Char :=
  trimStr (lowerStr b.text)

/-- Destructive-sounding labels excluded from button matching
(`skipPatterns`, `dialogInteraction.ts` line 430). -/
def skipPatterns : List (List Char) :=
  ["cancel".toList, "close".toList, "insert".toList,
   "submit".toList, "save".toList, "back".toList]

/-- The `shouldSkip` helper (`dialogInteraction.ts` line 433). -/
def shouldSkipText (t : List Char) : Bool :=
  skipPatterns.any fun p => containsSub p t

/-- Lowercased `aria-label` of a button, empty when the attribute is
absent (`btn.getAttribute('aria-label')?.toLowerCase() || ''`). -/
def buttonAria (b : DialogButton) : List Char :=
  lowerStr (b.ariaLabel.getD [])

/-- First tier of `clickGenerateButton` (lines 438-449): first enabled
button whose normalised text is not destructive and contains `generate`. -/
def findTextTier : List DialogButton → Option DialogButton
  | [] => none
  | b :: rest =>
    if b.disabled then findTextTier rest
    else if shouldSkipText (buttonText b) then findTextTier rest
    else if containsSub "generate".toList (buttonText b) then some b
    else findTextTier rest

/-- Second tier (lines 452-459): first enabled button whose `aria-label`
contains `generate`; only disabled buttons are skipped here. -/
def findAriaTier : List DialogButton → Option DialogButton
  | [] => none
  | b :: rest =>
    if b.disabled then findAriaTier rest
    else if containsSub "generate".toList (buttonAria b) then some b
    else findAriaTier rest

/-- Third tier (lines 466-478): first enabled, non-destructive button with
`color` attribute `primary` or `accent`. -/
def findPrimaryTier : List DialogButton → Option DialogButton
  | [] => none
  | b :: rest =>
    if b.disabled then findPrimaryTier rest
    else if shouldSkipText (buttonText b) then findPrimaryTier rest
    else if b.color = some "primary".toList ∨ b.color = some "accent".toList then
      some b
    else findPrimaryTier rest

/-- Customisation-dialog verification before the third tier (lines
463-464): the dialog text contains `customise` or `customize`. -/
def isCustomiseDialog (d : MatDialog) : Bool :=
  containsSub "customise".toList (lowerStr d.textContent)
    || containsSub "customize".toList (lowerStr d.textContent)

/-- Embedding of `clickGenerateButton` (`dialogInteraction.ts` lines
409-505), returning the button the script clicks, `none` when it reports
`clicked: false` (including when no dialog is open). -/
def clickGenerateButton (dialog : Option MatDialog) : Option DialogButton :=
  match dialog with
  | none => none
  | some d =>
    match findTextTier d.buttons with
    | some b => some b
    | none =>
      match findAriaTier d.buttons with
      | some b => some b
      | none =>
        if isCustomiseDialog d then findPrimaryTier d.buttons else none

/-! Batch scheduler phase 1 (`batchGenerateSlides` in `pageActions.ts`). -/

/-- Trigger loop of phase 1 (`pageActions.ts` lines 686-702): requests are
triggered in order and the successfully triggered audiences collected; `ok`
gives the outcome of `triggerSlideGeneration` for each position. -/
def batchTriggerLoop (ok : Nat → Bool) :
    List (List Char) → Nat → List (List Char)
  | [], _ => []
  | a :: rest, i =>
    if ok i then a :: batchTriggerLoop ok rest (i + 1)
    else batchTriggerLoop ok rest (i + 1)

/-- State of the batch run after phase 1: the successfully triggered
subset and the expected total `initialCount + triggered.length`
(`pageActions.ts` lines 684-711). -/
structure BatchPhase1 where
  triggered : List (List Char)
  expectedCount : Nat

/-- Phase 1 of `batchGenerateSlides`: trigger every request, then compute
the expected artifact count from what was actually triggered. -/
def batchPhase1 (initialCount : Nat) (audiences : List (List Char))
    (ok : Nat → Bool) : BatchPhase1 :=
  let triggered := batchTriggerLoop ok audiences 0
  { triggered := triggered,
    expectedCount := initialCount + triggered.length }

/-! Single-run workflow (`generateSlides`, `pageActions.ts` lines 439-498). -/

/-- Environment of one `generateSlides` run: the outcome of each remote
stage the workflow branches on. The function itself contains no `throw`;
exceptions can only propagate from the remote-evaluation capability
underneath these stages. -/
structure SlideGenEnv where
  /-- Outcome of `hasNotebookSources`. -/
  hasSources : Bool
  /-- Outcome of `openCustomizeDialog`. -/
  dialogOpened : Bool
  /-- Outcome of the `waitForDialog` verification (customise/customize). -/
  dialogVerified : Bool
  /-- Outcome of `clickGenerateButton`. -/
  generateClicked : Bool
  /-- Count of slides when the run started. -/
  initialCount : Nat
  /-- Poll trace consumed by `waitForArtifactReady`. -/
  pollTrace : List Page
  /-- Outcome of `triggerArtifactDownload` inside `downloadLatestArtifact`. -/
  downloadTriggered : Bool
  /-- Initial download-directory listing. -/
  existingFiles : List (List Char)
  /-- Poll trace consumed by `waitForDownload`. -/
  downloadTrace : List DirSnapshot
  /-- Prefix passed to `downloadLatestArtifact` (the audience label). -/
  audiencePrefix : List Char

/-- Embedding of `downloadLatestArtifact` (`downloadHandler.ts` lines
236-279): `null` when the trigger fails or the download times out,
otherwise the renamed record. -/
def downloadLatestArtifact (t : ArtifactType) (pfx : List Char)
    (triggered : Bool) (existing : List (List Char))
    (trace : List DirSnapshot) : Option DownloadResultRec :=
  if !triggered then none
  else
    match waitForDownload existing trace with
    | none => none
    | some f =>
      some { filename := formatFilename f pfx t,
             suggestedFilename := f,
             artifactType := t }

/-- Embedding of the `generateSlides` workflow (`pageActions.ts` lines
439-498): every stage failure short-circuits to `none`. -/
def generateSlidesRun (env : SlideGenEnv) : Option DownloadResultRec :=
  if !env.hasSources then none
  else if !env.dialogOpened then none
  else if !env.dialogVerified then none
  else if !env.generateClicked then none
  else if !(waitForArtifactReady ArtifactType.slides env.initialCount env.pollTrace) then none
  else downloadLatestArtifact ArtifactType.slides env.audiencePrefix
    env.downloadTriggered env.existingFiles env.downloadTrace

/-! Concrete inputs used by the closed theorems below. -/

/-- Parent container whose only loading indicator is a disabled button. -/
def disabledOnlyParent : ParentContainer :=
  { classes := ["artifact-item-button".toList],
    button := some { disabled := true, classes := [] },
    titleText := some "My deck".toList,
    hasSyncIcon := false }

/-- Artifact element sitting in `disabledOnlyParent`. -/
def disabledOnlyElem : ArtifactElem :=
  { artTitle := some "My deck".toList, parent := some disabledOnlyParent }

/-- Page with a single slides artifact whose only loading indicator is the
disabled button state. -/
def disabledOnlyPage : Page :=
  { artifacts := fun t =>
      match t with
      | ArtifactType.slides => [disabledOnlyElem]
      | _ => [] }

/-- Page with no artifacts of any kind. -/
def emptyPage : Page :=
  { artifacts := fun _ => [] }

/-- Enabled dialog button whose visible text is `Cancel` but whose
`aria-label` contains `generate`. -/
def ariaTrapButton : DialogButton :=
  { text := "Cancel".toList,
    ariaLabel := some "generate options".toList,
    disabled := false,
    color := none }

/-- Dialog containing only `ariaTrapButton`. -/
def ariaTrapDialog : MatDialog :=
  { buttons := [ariaTrapButton], textContent := "Customize slide deck".toList }

/-- Plain enabled `Generate` button. -/
def plainGenerateButton : DialogButton :=
  { text := "Generate".toList, ariaLabel := none, disabled := false,
    color := some "primary".toList }

/-- Customisation dialog containing only `plainGenerateButton`. -/
def plainGenerateDialog : MatDialog :=
  { buttons := [plainGenerateButton],
    textContent := "Customize slide deck".toList }

/-- Page with one ready (parentless, hence signal-free) slides artifact. -/
def readyPage : Page :=
  { artifacts := fun t =>
      match t with
      | ArtifactType.slides => [{ artTitle := some "Deck".toList, parent := none }]
      | _ => [] }

/-- Directory snapshot where `a.pdf` is newly present with a stable
non-zero size. -/
def stableSnap : DirSnapshot :=
  { files := ["a.pdf".toList],
    size1 := fun _ => 3,
    size2 := fun _ => some 3 }

/-- Environment of a fully successful `generateSlides` run. -/
def envOk : SlideGenEnv :=
  { hasSources := true, dialogOpened := true, dialogVerified := true,
    generateClicked := true, initialCount := 0, pollTrace := [readyPage],
    downloadTriggered := true, existingFiles := [],
    downloadTrace := [stableSnap], audiencePrefix := "technical".toList }

/-- Environment of a run whose customise dialog never opened. -/
def envNoDialog : SlideGenEnv :=
  { hasSources := true, dialogOpened := false, dialogVerified := false,
    generateClicked := false, initialCount := 0, pollTrace := [],
    downloadTriggered := false, existingFiles := [], downloadTrace := [],
    audiencePrefix := "technical".toList }

/-- Per-position outcomes where only position 1 fails (trigger missed). -/
def outOneFailure : Nat → PosOutcome :=
  fun i =>
    if i = 1 then { loading := false, triggered := false, download := none }
    else { loading := false, triggered := true, download := some "deck.pdf".toList }

/-- Record produced by the successful run `envOk`. -/
def okRecord : DownloadResultRec :=
  { filename := "technical_a.pdf".toList,
    suggestedFilename := "a.pdf".toList,
    artifactType := ArtifactType.slides }

/-- Audience list of a three-deck batch download. -/
def batchAuds : AudiencesArg :=
  AudiencesArg.list
    [some "tech".toList, some "exec".toList, some "cust".toList]

/-- Record produced at position 0 of the batch download driven by
`outOneFailure`. -/
def batchRecord0 : DownloadResultRec :=
  { filename := "01_tech_deck.pdf".toList,
    suggestedFilename := "deck.pdf".toList,
    artifactType := ArtifactType.slides }

/-! Helper lemmas. -/

/-- The trigger loop of batch phase 1 returns a sublist of its input. -/
theorem batchTriggerLoop_sublist (ok : Nat → Bool)
    (l : List (List Char)) : ∀ i, List.Sublist (batchTriggerLoop ok l i) l := by
  induction l with
  | nil => intro i; simp [batchTriggerLoop]
  | cons a rest ih =>
    intro i
    simp only [batchTriggerLoop]
    by_cases h : ok i = true
    · simpa [h] using (ih (i + 1)).cons₂ a
    · simpa [h] using (ih (i + 1)).cons a

/-- Soundness of the inner scan of `waitForDownload`: a confirmed file came
from the listing, was new, was not a temporary file, and had a stable
non-zero size across the two checks. -/
theorem scanNewFiles_sound (existing : List (List Char))
    (snap : DirSnapshot) :
    ∀ l f, scanNewFiles existing snap l = some f →
      f ∈ l ∧ existing.contains f = false ∧ isTempDownloadFile f = false ∧
        snap.size2 f = some (snap.size1 f) ∧ 0 < snap.size1 f := by
  intro l
  induction l with
  | nil => intro f h; simp [scanNewFiles] at h
  | cons g rest ih =>
    intro f h
    simp only [scanNewFiles] at h
    split at h
    · rcases ih f h with ⟨hm, hrest⟩
      exact ⟨List.mem_cons_of_mem g hm, hrest⟩
    · split at h
      · rcases ih f h with ⟨hm, hrest⟩
        exact ⟨List.mem_cons_of_mem g hm, hrest⟩
      · next h1 h2 =>
        split at h
        · rcases ih f h with ⟨hm, hrest⟩
          exact ⟨List.mem_cons_of_mem g hm, hrest⟩
        · next s2 hs =>
          split at h
          · next h3 =>
            cases h
            refine ⟨List.mem_cons_self g rest, by simpa using h1,
              by simpa using h2, ?_, ?_⟩
            · rw [hs, h3.1]
            · rw [h3.1]; exact h3.2
          · rcases ih f h with ⟨hm, hrest⟩
            exact ⟨List.mem_cons_of_mem g hm, hrest⟩

/-! Claim theorems. -/

/-- Claim C1 (code bug exhibit). On a page whose single slides artifact
shows only the disabled-button loading indicator — the other three signals
are absent — `isArtifactLoading` returns `false`, because the script's
final disjunction omits the computed `isDisabled` indicator. The claim
(and the script's own `Loading if ANY of these are true` comment over its
four listed indicators) requires `true` here. -/
theorem isArtifactLoading_ignores_disabled_signal :
    disabledSignal disabledOnlyParent = true ∧
    shimmerSignal disabledOnlyParent = false ∧
    generatingSignal disabledOnlyParent = false ∧
    syncSignal disabledOnlyParent = false ∧
    isArtifactLoading disabledOnlyPage ArtifactType.slides 0 = false := by
  decide

/-- Claim C2. `waitForArtifactReady` returns `true` exactly when some
polled snapshot shows a count above `initialCount` together with a
non-loading artifact at the last index; exhausting the trace (the timeout)
yields `false` even if the count rose. -/
theorem waitForArtifactReady_true_iff (t : ArtifactType)
    (initialCount : Nat) (trace : List Page) :
    waitForArtifactReady t initialCount trace = true ↔
      ∃ p ∈ trace, initialCount < countArtifacts p t ∧
        isArtifactLoading p t (-1) = false := by
  induction trace with
  | nil => simp [waitForArtifactReady]
  | cons p rest ih =>
    simp only [waitForArtifactReady]
    by_cases h1 : initialCount < countArtifacts p t
    · by_cases h2 : isArtifactLoading p t (-1) = true
      · simp [h1, h2, ih]
      · simp [h1, h2]
    · simp [h1, ih]

/-- Claim C3. After the trigger phase of `batchGenerateSlides`, the
triggered subset is a sublist of the request list (hence never longer),
and the expected count handed to the wait phase is the initial count plus
the number of successfully triggered requests — whatever subset of
requests failed to trigger. -/
theorem batchPhase1_invariant (initialCount : Nat)
    (audiences : List (List Char)) (ok : Nat → Bool) :
    List.Sublist (batchPhase1 initialCount audiences ok).triggered audiences ∧
    (batchPhase1 initialCount audiences ok).triggered.length ≤ audiences.length ∧
    (batchPhase1 initialCount audiences ok).expectedCount =
      initialCount + (batchPhase1 initialCount audiences ok).triggered.length := by
  refine ⟨batchTriggerLoop_sublist ok audiences 0, ?_, rfl⟩
  exact (batchTriggerLoop_sublist ok audiences 0).length_le

/-- Claim C6. Whatever file `waitForDownload` confirms was, at some poll,
newly present in the listing, not a partial/temporary download or dotfile,
and measured with the same non-zero size by both consecutive checks; in
particular a file whose size differs between the two checks, or a
temp-marked file, is never confirmed. -/
theorem waitForDownload_confirms_only_stable (existing : List (List Char))
    (trace : List DirSnapshot) (f : List Char)
    (h : waitForDownload existing trace = some f) :
    ∃ snap ∈ trace, f ∈ snap.files ∧ existing.contains f = false ∧
      isTempDownloadFile f = false ∧ snap.size2 f = some (snap.size1 f) ∧
      0 < snap.size1 f := by
  induction trace with
  | nil => simp [waitForDownload] at h
  | cons snap rest ih =>
    simp only [waitForDownload] at h
    cases hs : scanNewFiles existing snap snap.files with
    | some g =>
      rw [hs] at h
      cases h
      exact ⟨snap, List.mem_cons_self snap rest,
        scanNewFiles_sound existing snap snap.files f hs⟩
    | none =>
      rw [hs] at h
      rcases ih h with ⟨s, hmem, hrest⟩
      exact ⟨s, List.mem_cons_of_mem snap hmem, hrest⟩

/-- Witness for claim C6 at a concrete stable download. -/
theorem waitForDownload_confirms_only_stable_witness :
    ∃ snap ∈ [stableSnap], "a.pdf".toList ∈ snap.files ∧
      List.contains [] "a.pdf".toList = false ∧
      isTempDownloadFile "a.pdf".toList = false ∧
      snap.size2 "a.pdf".toList = some (snap.size1 "a.pdf".toList) ∧
      0 < snap.size1 "a.pdf".toList :=
  waitForDownload_confirms_only_stable [] [stableSnap] "a.pdf".toList (by decide)

/-- Claim C10. The monitor queries are total at their interface: with no
matching element `countArtifacts` reports `0` and the other two report
not-found, and an index at or past the end makes `isArtifactLoading`
return `false` and `getArtifactInfo` return `none`. -/
theorem artifactMonitor_total (page : Page) (t : ArtifactType) (i : Nat) :
    (page.artifacts t = [] →
      countArtifacts page t = 0 ∧
      isArtifactLoading page t (-1) = false ∧
      getArtifactInfo page t (-1) = none) ∧
    ((page.artifacts t).length ≤ i →
      isArtifactLoading page t (i : Int) = false ∧
      getArtifactInfo page t (i : Int) = none) := by
  constructor
  · intro h
    refine ⟨by simp [countArtifacts, h], ?_, ?_⟩
    · simp [isArtifactLoading, h]
    · simp [getArtifactInfo, h]
  · intro h
    have hofnat : ¬((i : Int) < 0) := by omega
    have hidx : resolveIndex (i : Int) (page.artifacts t).length = i := by
      simp [resolveIndex, hofnat]
    constructor
    · simp only [isArtifactLoading, hidx]
      by_cases h0 : (page.artifacts t).length = 0
      · simp [h0]
      · simp [h0, h]
    · simp only [getArtifactInfo, hidx]
      by_cases h0 : (page.artifacts t).length = 0
      · simp [h0]
      · simp [h0, h]

/-- Witness for claim C10 on the empty page at index 0. -/
theorem artifactMonitor_total_witness :
    (countArtifacts emptyPage ArtifactType.slides = 0 ∧
      isArtifactLoading emptyPage ArtifactType.slides (-1) = false ∧
      getArtifactInfo emptyPage ArtifactType.slides (-1) = none) ∧
    (isArtifactLoading emptyPage ArtifactType.slides ((0 : Nat) : Int) = false ∧
      getArtifactInfo emptyPage ArtifactType.slides ((0 : Nat) : Int) = none) :=
  ⟨(artifactMonitor_total emptyPage ArtifactType.slides 0).1 rfl,
    (artifactMonitor_total emptyPage ArtifactType.slides 0).2 (by decide)⟩

/-- Last-index computation over an append whose right part contains the
character: the rightmost occurrence wins, shifted by the left length. -/
theorem lastIndexOfChar_append_some (c : Char) (xs ys : List Char) (j : Nat)
    (h : lastIndexOfChar c ys = some j) :
    lastIndexOfChar c (xs ++ ys) = some (xs.length + j) := by
  induction xs with
  | nil => simpa using h
  | cons x xs ih =>
    simp only [List.cons_append, lastIndexOfChar, List.append_eq, ih,
      List.length_cons]
    congr 1
    omega

/-- A last-index is a position inside the list. -/
theorem lastIndexOfChar_lt_length (c : Char) (s : List Char) :
    ∀ i, lastIndexOfChar c s = some i → i < s.length := by
  induction s with
  | nil => intro i h; simp [lastIndexOfChar] at h
  | cons x xs ih =>
    intro i h
    simp only [lastIndexOfChar] at h
    cases hx : lastIndexOfChar c xs with
    | some j =>
      rw [hx] at h
      cases h
      have := ih j hx
      simp only [List.length_cons]
      omega
    | none =>
      rw [hx] at h
      by_cases hxc : x = c
      · rw [if_pos hxc] at h
        cases h
        simp
      · rw [if_neg hxc] at h
        cases h

/-- Dropping up to the last occurrence leaves it as the unique last
occurrence at position `0`. -/
theorem lastIndexOfChar_drop (c : Char) (s : List Char) :
    ∀ i, lastIndexOfChar c s = some i →
      lastIndexOfChar c (s.drop i) = some 0 := by
  induction s with
  | nil => intro i h; simp [lastIndexOfChar] at h
  | cons x xs ih =>
    intro i h
    simp only [lastIndexOfChar] at h
    cases hx : lastIndexOfChar c xs with
    | some j =>
      rw [hx] at h
      cases h
      simpa using ih j hx
    | none =>
      rw [hx] at h
      by_cases hxc : x = c
      · rw [if_pos hxc] at h
        cases h
        simp only [List.drop_zero, lastIndexOfChar, hx]
        rw [if_pos hxc]
      · rw [if_neg hxc] at h
        cases h

/-- Default extensions have their dot in front and four characters. -/
theorem artifactExtension_shape (t : ArtifactType) :
    lastIndexOfChar '.' (artifactExtension t) = some 0 ∧
      (artifactExtension t).length = 4 := by
  cases t <;> exact ⟨by decide, by decide⟩

/-- Structure of every `formatFilename` result: a nonempty stem (nonempty
as soon as the suggestion is) followed by a short extension whose only dot
is its first character. -/
theorem formatFilename_shape (s pfx : List Char) (t : ArtifactType) :
    ∃ a ext, formatFilename s pfx t = a ++ ext ∧
      (s ≠ [] → a ≠ []) ∧
      lastIndexOfChar '.' ext = some 0 ∧
      1 ≤ ext.length ∧ ext.length ≤ 5 := by
  by_cases hx : hasShortExtension s = true
  · have hi : ∃ i, lastIndexOfChar '.' s = some i ∧ 0 < i ∧ s.length - 6 < i := by
      unfold hasShortExtension at hx
      cases hlast : lastIndexOfChar '.' s with
      | none => rw [hlast] at hx; cases hx
      | some i =>
        rw [hlast] at hx
        simp only [Bool.and_eq_true, decide_eq_true_eq] at hx
        exact ⟨i, rfl, hx.1, hx.2⟩
    obtain ⟨i, hlast, h0, h6⟩ := hi
    have hlt : i < s.length := lastIndexOfChar_lt_length '.' s i hlast
    have hes : extensionStart s = i := by simp [extensionStart, hlast]
    have hdot : lastIndexOfChar '.' (s.drop i) = some 0 :=
      lastIndexOfChar_drop '.' s i hlast
    have hdlen : (s.drop i).length = s.length - i := List.length_drop i s
    have htake : (s.take i).length = i := by
      simp [List.length_take]
      omega
    have htne : s.take i ≠ [] := by
      intro hnil
      rw [hnil] at htake
      simp at htake
      omega
    by_cases hp : collapseWs pfx = []
    · refine ⟨s.take i, s.drop i, ?_, fun _ => htne, hdot, by omega, by omega⟩
      simp [formatFilename, hx, hp, hes]
    · refine ⟨collapseWs pfx ++ '_' :: s.take i, s.drop i, ?_, fun _ => by simp,
        hdot, by omega, by omega⟩
      simp [formatFilename, hx, hp, hes]
  · have hx' : hasShortExtension s = false := by simpa using hx
    obtain ⟨hdot, hlen⟩ := artifactExtension_shape t
    by_cases hp : collapseWs pfx = []
    · refine ⟨s, artifactExtension t, ?_, fun h => h, hdot, by omega, by omega⟩
      simp [formatFilename, hx', hp]
    · refine ⟨collapseWs pfx ++ '_' :: s, artifactExtension t, ?_,
        fun _ => by simp, hdot, by omega, by omega⟩
      simp [formatFilename, hx', hp]

/-- Claim C4 (counterexample). Re-applying `formatFilename` to its own
output with the same non-empty prefix prepends the prefix again:
`report` with prefix `01` becomes `01_report.pdf`, and a second
application with prefix `01` yields `01_01_report.pdf`. -/
theorem formatFilename_not_idempotent_same_prefix :
    formatFilename
        (formatFilename "report".toList "01".toList ArtifactType.slides)
        "01".toList ArtifactType.slides ≠
      formatFilename "report".toList "01".toList ArtifactType.slides := by
  decide

/-- Claim C4 (amended). Re-applying `formatFilename` to an already
finalized name of a non-empty suggestion with an empty prefix returns the
name unchanged; with the same non-empty prefix the prefix is prepended a
second time, as the counterexample shows. -/
theorem formatFilename_reapply_empty_prefix (s pfx : List Char)
    (t : ArtifactType) (hs : s ≠ []) :
    formatFilename (formatFilename s pfx t) [] t =
      formatFilename s pfx t := by
  obtain ⟨a, ext, heq, hane, hdot, hge, hle⟩ := formatFilename_shape s pfx t
  have ha : a ≠ [] := hane hs
  have halen : 0 < a.length := List.length_pos.mpr ha
  rw [heq]
  have hlast : lastIndexOfChar '.' (a ++ ext) = some a.length := by
    have := lastIndexOfChar_append_some '.' a ext 0 hdot
    simpa using this
  have hxt : hasShortExtension (a ++ ext) = true := by
    unfold hasShortExtension
    rw [hlast]
    simp only [Bool.and_eq_true, decide_eq_true_eq]
    constructor
    · omega
    · rw [List.length_append]
      omega
  have hesx : extensionStart (a ++ ext) = a.length := by
    simp [extensionStart, hlast]
  have hclean : collapseWs ([] : List Char) = [] := rfl
  simp only [formatFilename, hxt, if_true, hesx, hclean, if_pos rfl]
  rw [List.take_left, List.drop_left]

/-- Witness for the amended claim C4 at `report` with prefix `01`. -/
theorem formatFilename_reapply_empty_prefix_witness :
    "report".toList ≠ ([] : List Char) ∧
    formatFilename
        (formatFilename "report".toList "01".toList ArtifactType.slides)
        [] ArtifactType.slides =
      formatFilename "report".toList "01".toList ArtifactType.slides :=
  ⟨by decide,
    formatFilename_reapply_empty_prefix "report".toList "01".toList
      ArtifactType.slides (by decide)⟩

/-- Claim C5. A suggestion without a short trailing extension gets the
infographic default `.png` appended, and a suggestion with a short
trailing extension keeps that extension as the suffix of the result, for
every prefix and kind. -/
theorem formatFilename_extension_handling (s pfx : List Char)
    (t : ArtifactType) :
    (hasShortExtension s = false →
      List.IsSuffix (artifactExtension ArtifactType.infographic)
        (formatFilename s pfx ArtifactType.infographic)) ∧
    (hasShortExtension s = true →
      List.IsSuffix (originalExtension s) (formatFilename s pfx t)) := by
  constructor
  · intro h
    by_cases hp : collapseWs pfx = []
    · have he : formatFilename s pfx ArtifactType.infographic =
          s ++ artifactExtension ArtifactType.infographic := by
        simp [formatFilename, h, hp]
      rw [he]
      exact List.suffix_append _ _
    · have he : formatFilename s pfx ArtifactType.infographic =
          collapseWs pfx ++
            '_' :: (s ++ artifactExtension ArtifactType.infographic) := by
        simp [formatFilename, h, hp]
      rw [he]
      exact ⟨collapseWs pfx ++ '_' :: s, by simp⟩
  · intro h
    by_cases hp : collapseWs pfx = []
    · have he : formatFilename s pfx t = s := by
        simp [formatFilename, h, hp]
      rw [he]
      exact List.drop_suffix _ _
    · have he : formatFilename s pfx t = collapseWs pfx ++ '_' :: s := by
        simp [formatFilename, h, hp]
      rw [he]
      exact (List.drop_suffix _ _).trans ⟨collapseWs pfx ++ ['_'], by simp⟩

/-- Witness for claim C5: `pic` gains `.png`, `report.pdf` keeps `.pdf`. -/
theorem formatFilename_extension_handling_witness :
    List.IsSuffix (artifactExtension ArtifactType.infographic)
      (formatFilename "pic".toList "p".toList ArtifactType.infographic) ∧
    List.IsSuffix (originalExtension "report.pdf".toList)
      (formatFilename "report.pdf".toList "p".toList ArtifactType.slides) :=
  ⟨(formatFilename_extension_handling "pic".toList "p".toList
      ArtifactType.slides).1 (by decide),
    (formatFilename_extension_handling "report.pdf".toList "p".toList
      ArtifactType.slides).2 (by decide)⟩

/-- Claim C7. Every stage failure of the `generateSlides` workflow — no
sources, customise dialog not opened, dialog never verified, Generate not
clicked, artifact not ready before the timeout, download not triggered or
timed out — short-circuits to a `null` result, and a non-null result
certifies that every stage succeeded. The embedded workflow is total: no
exception arises from these stages, matching the source, which contains
no `throw` and can only propagate exceptions from the remote-evaluation
capability beneath them. -/
theorem generateSlides_null_on_stage_failure (env : SlideGenEnv) :
    ((env.hasSources = false ∨ env.dialogOpened = false ∨
        env.dialogVerified = false ∨ env.generateClicked = false ∨
        waitForArtifactReady ArtifactType.slides env.initialCount
          env.pollTrace = false ∨
        env.downloadTriggered = false ∨
        waitForDownload env.existingFiles env.downloadTrace = none) →
      generateSlidesRun env = none) ∧
    (∀ r, generateSlidesRun env = some r →
      env.hasSources = true ∧ env.dialogOpened = true ∧
      env.dialogVerified = true ∧ env.generateClicked = true ∧
      waitForArtifactReady ArtifactType.slides env.initialCount
        env.pollTrace = true ∧
      env.downloadTriggered = true ∧
      waitForDownload env.existingFiles env.downloadTrace =
        some r.suggestedFilename ∧
      r.filename =
        formatFilename r.suggestedFilename env.audiencePrefix
          ArtifactType.slides ∧
      r.artifactType = ArtifactType.slides) := by
  have hB : ∀ r, generateSlidesRun env = some r →
      env.hasSources = true ∧ env.dialogOpened = true ∧
      env.dialogVerified = true ∧ env.generateClicked = true ∧
      waitForArtifactReady ArtifactType.slides env.initialCount
        env.pollTrace = true ∧
      env.downloadTriggered = true ∧
      waitForDownload env.existingFiles env.downloadTrace =
        some r.suggestedFilename ∧
      r.filename =
        formatFilename r.suggestedFilename env.audiencePrefix
          ArtifactType.slides ∧
      r.artifactType = ArtifactType.slides := by
    intro r h
    simp only [generateSlidesRun, downloadLatestArtifact] at h
    cases hS : env.hasSources with
    | false => simp [hS] at h
    | true =>
    cases hO : env.dialogOpened with
    | false => simp [hS, hO] at h
    | true =>
    cases hV : env.dialogVerified with
    | false => simp [hS, hO, hV] at h
    | true =>
    cases hC : env.generateClicked with
    | false => simp [hS, hO, hV, hC] at h
    | true =>
    cases hW : waitForArtifactReady ArtifactType.slides env.initialCount
        env.pollTrace with
    | false => simp [hS, hO, hV, hC, hW] at h
    | true =>
    cases hT : env.downloadTriggered with
    | false => simp [hS, hO, hV, hC, hW, hT] at h
    | true =>
    cases hD : waitForDownload env.existingFiles env.downloadTrace with
    | none => simp [hS, hO, hV, hC, hW, hT, hD] at h
    | some f =>
      simp only [hS, hO, hV, hC, hW, hT, hD, Bool.not_true,
        Bool.false_eq_true, if_false] at h
      cases h
      exact ⟨rfl, rfl, rfl, rfl, rfl, rfl, rfl, rfl, rfl⟩
  refine ⟨?_, hB⟩
  intro hfail
  cases hres : generateSlidesRun env with
  | none => rfl
  | some r =>
    have hall := hB r hres
    rcases hfail with h | h | h | h | h | h | h <;> simp_all

/-- Witness for claim C7: a run whose dialog never opened yields `none`,
and the fully successful run `envOk` certifies every stage. -/
theorem generateSlides_null_on_stage_failure_witness :
    generateSlidesRun envNoDialog = none ∧
    (envOk.hasSources = true ∧ envOk.dialogOpened = true ∧
      envOk.dialogVerified = true ∧ envOk.generateClicked = true ∧
      waitForArtifactReady ArtifactType.slides envOk.initialCount
        envOk.pollTrace = true ∧
      envOk.downloadTriggered = true ∧
      waitForDownload envOk.existingFiles envOk.downloadTrace =
        some okRecord.suggestedFilename ∧
      okRecord.filename =
        formatFilename okRecord.suggestedFilename envOk.audiencePrefix
          ArtifactType.slides ∧
      okRecord.artifactType = ArtifactType.slides) :=
  ⟨(generateSlides_null_on_stage_failure envNoDialog).1
      (Or.inr (Or.inl rfl)),
    (generateSlides_null_on_stage_failure envOk).2 okRecord (by decide)⟩

/-- The download loop equals a `filterMap` of the per-position success
projection over the index range: failing positions contribute nothing and
never stop the iteration. -/
theorem downloadAllLoop_eq_filterMap (t : ArtifactType)
    (auds : AudiencesArg) (startIndex : Nat) (skipLoading : Bool)
    (out : Nat → PosOutcome) :
    ∀ remaining i,
      downloadAllLoop t auds startIndex skipLoading out i remaining =
        (List.range' i remaining).filterMap
          (fun k => posRecord t auds startIndex skipLoading k (out k)) := by
  intro remaining
  induction remaining with
  | zero => intro i; simp [downloadAllLoop]
  | succ n ih =>
    intro i
    rw [List.range'_succ, List.filterMap_cons]
    by_cases h1 : (skipLoading && (out i).loading) = true
    · have hp : posRecord t auds startIndex skipLoading i (out i) = none := by
        simp [posRecord, h1]
      rw [hp]
      simp only [downloadAllLoop]
      rw [if_pos h1]
      exact ih (i + 1)
    · by_cases h2 : (!(out i).triggered) = true
      · have hp : posRecord t auds startIndex skipLoading i (out i) = none := by
          simp only [posRecord, if_neg h1, if_pos h2]
        rw [hp]
        simp only [downloadAllLoop]
        rw [if_neg h1, if_pos h2]
        exact ih (i + 1)
      · cases hd : (out i).download with
        | none =>
          have hp : posRecord t auds startIndex skipLoading i (out i) = none := by
            simp only [posRecord, if_neg h1, if_neg h2, hd]
          rw [hp]
          simp only [downloadAllLoop]
          rw [if_neg h1, if_neg h2, hd]
          exact ih (i + 1)
        | some f =>
          have hp : posRecord t auds startIndex skipLoading i (out i) =
              some (downloadRecordAt t auds startIndex i f) := by
            simp only [posRecord, if_neg h1, if_neg h2, hd]
          rw [hp]
          simp only [downloadAllLoop]
          rw [if_neg h1, if_neg h2, hd]
          exact congrArg (List.cons (downloadRecordAt t auds startIndex i f))
            (ih (i + 1))

/-- Claim C8. The batch download phase equals the `filterMap` of
per-position successes (so a failed position — still loading, trigger not
found, or download timeout — is skipped without aborting the rest), and
every record of the result certifies a fully successful position; there
are no placeholders for failures. -/
theorem downloadAllArtifacts_skips_failures (t : ArtifactType)
    (auds : AudiencesArg) (startIndex totalCount : Nat)
    (skipLoading : Bool) (out : Nat → PosOutcome) :
    downloadAllArtifacts t auds startIndex totalCount skipLoading out =
      (List.range' startIndex (totalCount - startIndex)).filterMap
        (fun k => posRecord t auds startIndex skipLoading k (out k)) ∧
    ∀ r ∈ downloadAllArtifacts t auds startIndex totalCount
        skipLoading out,
      ∃ i, startIndex ≤ i ∧ i < totalCount ∧
        (skipLoading && (out i).loading) = false ∧
        (out i).triggered = true ∧
        (out i).download = some r.suggestedFilename ∧
        r = downloadRecordAt t auds startIndex i r.suggestedFilename := by
  have heq : downloadAllArtifacts t auds startIndex totalCount
      skipLoading out =
      (List.range' startIndex (totalCount - startIndex)).filterMap
        (fun k => posRecord t auds startIndex skipLoading k (out k)) := by
    unfold downloadAllArtifacts
    by_cases h : totalCount = 0 ∨ totalCount ≤ startIndex
    · rw [if_pos h]
      have h0 : totalCount - startIndex = 0 := by omega
      rw [h0]
      simp
    · rw [if_neg h]
      exact downloadAllLoop_eq_filterMap t auds startIndex skipLoading out
        (totalCount - startIndex) startIndex
  refine ⟨heq, ?_⟩
  intro r hr
  rw [heq, List.mem_filterMap] at hr
  obtain ⟨i, hmem, hpos⟩ := hr
  obtain ⟨hlo, hhi⟩ := List.mem_range'_1.mp hmem
  have hne : ¬(totalCount ≤ startIndex) := by
    by_contra hc
    have h0 : totalCount - startIndex = 0 := by omega
    rw [h0] at hmem
    simp at hmem
  unfold posRecord at hpos
  by_cases h1 : (skipLoading && (out i).loading) = true
  · rw [if_pos h1] at hpos; cases hpos
  · rw [if_neg h1] at hpos
    by_cases h2 : (!(out i).triggered) = true
    · rw [if_pos h2] at hpos; cases hpos
    · rw [if_neg h2] at hpos
      cases hd : (out i).download with
      | none => rw [hd] at hpos; cases hpos
      | some f =>
        rw [hd] at hpos
        cases hpos
        refine ⟨i, by omega, by omega, by simpa using h1,
          by simpa using h2, ?_, rfl⟩
        rw [hd]
        rfl

/-- Witness for claim C8 on the batch where position 1 fails to trigger:
position 0 still produces its record. -/
theorem downloadAllArtifacts_skips_failures_witness :
    ∃ i, 0 ≤ i ∧ i < 3 ∧
      (true && (outOneFailure i).loading) = false ∧
      (outOneFailure i).triggered = true ∧
      (outOneFailure i).download = some batchRecord0.suggestedFilename ∧
      batchRecord0 =
        downloadRecordAt ArtifactType.slides batchAuds 0 i
          batchRecord0.suggestedFilename :=
  (downloadAllArtifacts_skips_failures ArtifactType.slides batchAuds 0 3
      true outOneFailure).2 batchRecord0 (by decide)

/-- Soundness of the visible-text tier: the clicked button is enabled,
non-destructive, and its text contains `generate`. -/
theorem findTextTier_sound :
    ∀ l b, findTextTier l = some b →
      b.disabled = false ∧ shouldSkipText (buttonText b) = false ∧
      containsSub "generate".toList (buttonText b) = true := by
  intro l
  induction l with
  | nil => intro b h; simp [findTextTier] at h
  | cons g rest ih =>
    intro b h
    simp only [findTextTier] at h
    split at h
    · exact ih b h
    · split at h
      · exact ih b h
      · split at h
        · next h1 h2 h3 =>
          cases h
          exact ⟨by simpa using h1, by simpa using h2, h3⟩
        · exact ih b h

/-- Soundness of the `aria-label` tier: the clicked button is enabled and
its `aria-label` contains `generate`; note there is no destructive-label
check at this tier. -/
theorem findAriaTier_sound :
    ∀ l b, findAriaTier l = some b →
      b.disabled = false ∧
      containsSub "generate".toList (buttonAria b) = true := by
  intro l
  induction l with
  | nil => intro b h; simp [findAriaTier] at h
  | cons g rest ih =>
    intro b h
    simp only [findAriaTier] at h
    split at h
    · exact ih b h
    · split at h
      · next h1 h2 =>
        cases h
        exact ⟨by simpa using h1, h2⟩
      · exact ih b h

/-- Soundness of the primary-styled tier: enabled, non-destructive, and
styled `primary` or `accent`. -/
theorem findPrimaryTier_sound :
    ∀ l b, findPrimaryTier l = some b →
      b.disabled = false ∧ shouldSkipText (buttonText b) = false ∧
      (b.color = some "primary".toList ∨ b.color = some "accent".toList) := by
  intro l
  induction l with
  | nil => intro b h; simp [findPrimaryTier] at h
  | cons g rest ih =>
    intro b h
    simp only [findPrimaryTier] at h
    split at h
    · exact ih b h
    · split at h
      · exact ih b h
      · split at h
        · next h1 h2 h3 =>
          cases h
          exact ⟨by simpa using h1, by simpa using h2, h3⟩
        · exact ih b h

/-- Claim C9 (counterexample). `clickGenerateButton` clicks an enabled
button whose visible text is `Cancel` — a destructive-sounding label —
because the `aria-label` tier matches `generate` without re-checking the
exclusion list. -/
theorem clickGenerateButton_clicks_destructive_text :
    clickGenerateButton (some ariaTrapDialog) = some ariaTrapButton ∧
    containsSub "cancel".toList (buttonText ariaTrapButton) = true ∧
    shouldSkipText (buttonText ariaTrapButton) = true := by
  decide

/-- Claim C9 (amended). `clickGenerateButton` resolves by priority —
visible text containing `generate`, then `aria-label` containing
`generate`, then (only in a verified customisation dialog) a
primary/accent-styled button — and the destructive-label exclusion holds
at the visible-text and primary-styled tiers, while the `aria-label` tier
skips only disabled buttons: every clicked button is enabled and is
either non-destructive or matched through its `aria-label`. -/
theorem clickGenerateButton_priority_and_exclusions (d : MatDialog) :
    (∀ b, findTextTier d.buttons = some b →
      clickGenerateButton (some d) = some b) ∧
    (findTextTier d.buttons = none →
      ∀ b, findAriaTier d.buttons = some b →
        clickGenerateButton (some d) = some b) ∧
    (findTextTier d.buttons = none → findAriaTier d.buttons = none →
      clickGenerateButton (some d) =
        if isCustomiseDialog d then findPrimaryTier d.buttons else none) ∧
    (∀ b, clickGenerateButton (some d) = some b →
      b.disabled = false ∧
      (containsSub "generate".toList (buttonAria b) = true ∨
        shouldSkipText (buttonText b) = false)) := by
  refine ⟨?_, ?_, ?_, ?_⟩
  · intro b h
    simp [clickGenerateButton, h]
  · intro h1 b h2
    simp [clickGenerateButton, h1, h2]
  · intro h1 h2
    simp [clickGenerateButton, h1, h2]
  · intro b h
    simp only [clickGenerateButton] at h
    cases h1 : findTextTier d.buttons with
    | some b1 =>
      rw [h1] at h
      cases h
      obtain ⟨hd, hskip, _⟩ := findTextTier_sound d.buttons b h1
      exact ⟨hd, Or.inr hskip⟩
    | none =>
      rw [h1] at h
      cases h2 : findAriaTier d.buttons with
      | some b2 =>
        rw [h2] at h
        cases h
        obtain ⟨hd, haria⟩ := findAriaTier_sound d.buttons b h2
        exact ⟨hd, Or.inl haria⟩
      | none =>
        rw [h2] at h
        by_cases h3 : isCustomiseDialog d = true
        · rw [if_pos h3] at h
          obtain ⟨hd, hskip, _⟩ := findPrimaryTier_sound d.buttons b h
          exact ⟨hd, Or.inr hskip⟩
        · rw [if_neg h3] at h
          cases h

/-- Witness for the amended claim C9 at a plain customisation dialog with
one enabled `Generate` button. -/
theorem clickGenerateButton_priority_witness :
    clickGenerateButton (some plainGenerateDialog) =
      some plainGenerateButton ∧
    (plainGenerateButton.disabled = false ∧
      (containsSub "generate".toList (buttonAria plainGenerateButton) = true ∨
        shouldSkipText (buttonText plainGenerateButton) = false)) :=
  ⟨(clickGenerateButton_priority_and_exclusions plainGenerateDialog).1
      plainGenerateButton (by decide),
    (clickGenerateButton_priority_and_exclusions plainGenerateDialog).2.2.2
      plainGenerateButton (by decide)⟩
